import Mathlib

/-!
Shallow embedding of the core logic of `trakt_watch/__main__.py`:
the URL resolver, the interactive picker loop, the search-menu kind
selection, the history reconciler used by the `progress` command, and
the mutating-call behaviour of `_mark_watched`, `_rate_input` and the
`unwatch` removal step.  All definitions are translated directly from
the Python source; theorems about them follow at the end of the file.

Strings are processed through structurally recursive helpers over
`List Char` (rather than the library's `String` routines) so that every
definition evaluates inside the kernel on concrete inputs.
-/

namespace TraktWatch

/-! ### Character-list string primitives -/

/-- Strip leading and trailing whitespace, as Python `str.strip()`. -/
def trimChars (cs : List Char) : List Char :=
  ((cs.dropWhile Char.isWhitespace).reverse.dropWhile Char.isWhitespace).reverse

/-- Python `str.strip()` on a `String`. -/
def pyStrip (s : String) : String := ⟨trimChars s.data⟩

/-- Python `str.upper()` on a `String` (ASCII). -/
def pyUpper (s : String) : String := ⟨s.data.map Char.toUpper⟩

/-- Split a character list on a separator character, as Python
`str.split(sep)`: always returns at least one (possibly empty) chunk. -/
def splitOnChar (c : Char) : List Char → List (List Char)
  | [] => [[]]
  | x :: rest =>
    if x = c then [] :: splitOnChar c rest
    else
      match splitOnChar c rest with
      | [] => [[x]]
      | h :: t => (x :: h) :: t

/-! ### Model of Python `int(str)` parsing (used for season/episode tokens) -/

/-- After the leading digit, Python's `int()` accepts further digits with
single underscores allowed only between digits. -/
def digitsTail : List Char → Bool
  | [] => true
  | '_' :: c :: rest => c.isDigit && digitsTail rest
  | c :: rest => c.isDigit && digitsTail rest

/-- Numeric value of a digit run, ignoring the underscore separators. -/
def digitsVal (cs : List Char) : Nat :=
  cs.foldl (fun a c => if c = '_' then a else a * 10 + (c.toNat - '0'.toNat)) 0

/-- Model of CPython `int(s)` on a string: surrounding whitespace is
stripped, an optional sign is allowed, then a non-empty digit run with
underscores only between digits; `none` models the `ValueError`. -/
def pyInt (s : String) : Option Int :=
  let cs := trimChars s.data
  let signed : Bool × List Char :=
    match cs with
    | '+' :: rest => (false, rest)
    | '-' :: rest => (true, rest)
    | _ => (false, cs)
  match signed.2 with
  | [] => none
  | c :: rest =>
    if c.isDigit && digitsTail rest then
      let v : Int := Int.ofNat (digitsVal signed.2)
      some (if signed.1 then -v else v)
    else none

/-! ### URL resolver (`_parse_url_to_input`) -/

/-- Locate the first `://` and return what follows it. -/
def afterSchemeSep : List Char → Option (List Char)
  | ':' :: '/' :: '/' :: rest => some rest
  | _ :: rest => afterSchemeSep rest
  | [] => none

/-- Model of `urllib.parse.urlsplit(url).path` for the URL shapes the
program handles: everything from the first `/` after `scheme://netloc`,
or the whole string when no `://` is present. -/
def urlSplitPath (url : String) : String :=
  match afterSchemeSep url.data with
  | none => url
  | some rest => ⟨rest.dropWhile (fun c => c ≠ '/')⟩

/-- The list comprehension `[u.strip() for u in parts.path.split("/") if u.strip()]`. -/
def urlPathParts (url : String) : List String :=
  (splitOnChar '/' (urlSplitPath url).data).filterMap
    (fun u => let t := trimChars u; if t.isEmpty then none else some ⟨t⟩)

/-- The `Input` union: `MovieId`, `EpisodeId` and `TVShowId` named tuples. -/
inductive Input where
  | MovieId (id : String)
  | EpisodeId (id : String) (season : Int) (episode : Int)
  | TVShowId (id : String)
deriving DecidableEq, Repr

/-- `_parse_url_to_input`: ordered pattern match over the path segments;
`Except.error` models the `ValueError` raised either explicitly (no
pattern matches) or by `int(season)` / `int(episode)`. -/
def parse_url_to_input (url : String) : Except String Input :=
  match urlPathParts url with
  | "movies" :: id :: _ => .ok (.MovieId id)
  | "shows" :: id :: "seasons" :: season :: "episodes" :: episode :: _ =>
    match pyInt season, pyInt episode with
    | some s, some e => .ok (.EpisodeId id s e)
    | none, _ => .error ("invalid literal for int: " ++ season)
    | some _, none => .error ("invalid literal for int: " ++ episode)
  | "shows" :: id :: _ => .ok (.TVShowId id)
  | prts => .error ("Invalid URL parts: " ++ String.intercalate "/" prts)

/-! ### Interactive picker (`_handle_pick_result` and `_pick_item`) -/

/-- The classification `_handle_pick_result` performs on one input line:
`n`/`q` raise `click.Abort`, `u` toggles URL display, anything else is
parsed with `int()` and yields `None` (re-prompt) on a `ValueError`. -/
inductive PickStep where
  | abort
  | toggleU
  | num (n : Int)
  | invalid
deriving DecidableEq, Repr

/-- `_handle_pick_result(user_input)`. -/
def handle_pick_result (s : String) : PickStep :=
  if pyStrip s = "n" ∨ pyStrip s = "q" then .abort
  else if pyStrip s = "u" then .toggleU
  else
    match pyInt s with
    | some n => .num n
    | none => .invalid

/-- How one `_pick_item` invocation ends: a 1-based in-range pick, or the
`click.Abort` raised for `n`/`q`. -/
inductive PickOutcome (α : Type) where
  | picked (a : α)
  | cancelled
deriving DecidableEq, Repr

/-- The `while choice is None` loop of `_pick_item`, driven by the list of
lines the user types (`none` when the script runs out while the loop is
still waiting for more input).  An empty line takes `click.prompt`'s
default `"1"`; an out-of-range or unparseable entry repeats the loop. -/
def pick_item {α : Type} (items : List α) : Bool → List String → Option (PickOutcome α)
  | _, [] => none
  | showUrls, line :: rest =>
    let entered := if line = "" then "1" else line
    match handle_pick_result entered with
    | .abort => some .cancelled
    | .toggleU => pick_item items (!showUrls) rest
    | .invalid => pick_item items showUrls rest
    | .num n =>
      if h : n < 1 ∨ (items.length : Int) < n then pick_item items showUrls rest
      else some (.picked (items.get ⟨n.toNat - 1, by omega⟩))

/-! ### Search-menu kind selection (first stage of `_search_trakt`) -/

/-- The module-level `allowed` list of recognized menu letters. -/
def allowed : List String := ["M", "S", "I", "E", "A", "U"]

/-- The `{"M": "movie", "S": "show", "I": "show", "E": "episode", "A": None}`
dictionary's `.get`: `"A"` maps to `None`, as does any missing key. -/
def mediaTypeFor (pressed : String) : Option String :=
  if pressed = "M" then some "movie"
  else if pressed = "S" then some "show"
  else if pressed = "I" then some "show"
  else if pressed = "E" then some "episode"
  else none

/-- `pressed = pressed if pressed in allowed else "A"`. -/
def normalizeKind (pressed : String) : String :=
  if allowed.contains pressed then pressed else "A"

/-- What the menu stage decides to do next: delegate to the URL resolver,
or issue one remote search scoped to an optional media type. -/
inductive SearchAction where
  | delegateUrl
  | search (media_type : Option String)
deriving DecidableEq, Repr

/-- Result of the menu stage: whether an error message was echoed for the
pressed key, and the action the function then proceeds with. -/
structure MenuResult where
  reported : Bool
  action : SearchAction
deriving DecidableEq, Repr

/-- The kind-selection stage of `_search_trakt`, as a function of the
character returned by `click.getchar()`.  Blank or unrecognized input is
reported with `click.secho` but the code then falls through, normalizes
the key to `"A"` and issues an unscoped search; only `"U"` diverts to the
URL prompt. -/
def search_menu (pressed0 : String) : MenuResult :=
  let pressed := pyUpper pressed0
  if pyStrip pressed = "" then
    { reported := true, action := .search (mediaTypeFor (normalizeKind pressed)) }
  else if ¬ allowed.contains pressed then
    { reported := true, action := .search (mediaTypeFor (normalizeKind pressed)) }
  else if pressed = "U" then
    { reported := false, action := .delegateUrl }
  else
    { reported := false, action := .search (mediaTypeFor (normalizeKind pressed)) }

/-! ### History entries (`traktexport.dal.HistoryEntry`) and the
`progress` command's per-show fold -/

/-- The `trakt_id` / `trakt_slug` pair carried by movies, episodes and
shows in parsed history records. -/
structure MediaIds where
  trakt_id : Int
  trakt_slug : Option String
deriving DecidableEq, Repr

/-- The `Show` dataclass embedded in an episode history record. -/
structure ShowData where
  ids : MediaIds
  title : String
deriving DecidableEq, Repr

/-- The `Episode` dataclass: its own ids plus the show it belongs to. -/
structure EpisodeData where
  ids : MediaIds
  show_ : ShowData
  season : Int
  episode : Int
  title : String
deriving DecidableEq, Repr

/-- The `Movie` dataclass (only the fields the embedded logic touches). -/
structure MovieData where
  ids : MediaIds
  title : String
deriving DecidableEq, Repr

/-- `media_data` is either a `Movie` or an `Episode`. -/
inductive MediaData where
  | movie (m : MovieData)
  | episode (e : EpisodeData)
deriving DecidableEq, Repr

/-- A parsed history record; `watched_at` is modelled as an integer
timestamp (only its ordering matters to the embedded logic). -/
structure HistoryEntry where
  history_id : Int
  watched_at : Int
  action : String
  media_type : String
  media_data : MediaData
deriving DecidableEq, Repr

/-- The show id of an episode history record, when `media_data` is one. -/
def entryShowId (e : HistoryEntry) : Option Int :=
  match e.media_data with
  | .episode ed => some ed.show_.ids.trakt_id
  | .movie _ => none

/-- The `prog: dict[int, HistoryEntry]` of the `progress` command, as an
insertion-ordered association list (Python dicts preserve insertion order
and keep a key's position on overwrite). -/
abbrev ProgMap : Type := List (Int × HistoryEntry)

/-- Dictionary lookup `prog[sid]` / `sid in prog`. -/
def lookupProg : ProgMap → Int → Option HistoryEntry
  | [], _ => none
  | (k, v) :: rest, sid => if k = sid then some v else lookupProg rest sid

/-- Overwriting `prog[sid] = e` for a key already present: the pair keeps
its position in insertion order. -/
def replaceProg (m : ProgMap) (sid : Int) (e : HistoryEntry) : ProgMap :=
  m.map (fun kv => if kv.1 = sid then (kv.1, e) else kv)

/-- One iteration of the `for entry in _parse_history(data)` loop of
`progress`: skip non-`watch` and non-`episode` records, fail (`none`,
modelling the `assert isinstance(entry.media_data, Episode)`) when the
media data is not an episode, then insert or keep-if-strictly-newer. -/
def progressStep (prog : ProgMap) (e : HistoryEntry) : Option ProgMap :=
  if e.action ≠ "watch" then some prog
  else if e.media_type ≠ "episode" then some prog
  else
    match e.media_data with
    | .movie _ => none
    | .episode ed =>
      let sid := ed.show_.ids.trakt_id
      match lookupProg prog sid with
      | none => some (prog ++ [(sid, e)])
      | some cur => if cur.watched_at < e.watched_at then some (replaceProg prog sid e) else some prog

/-- The whole loop, starting from a given dictionary state. -/
def progressFoldFrom : ProgMap → List HistoryEntry → Option ProgMap
  | prog, [] => some prog
  | prog, e :: rest =>
    match progressStep prog e with
    | none => none
    | some p => progressFoldFrom p rest

/-- The `prog` dictionary built by `progress` from one history page. -/
def progressFold (entries : List HistoryEntry) : Option ProgMap :=
  progressFoldFrom [] entries

/-- Whether a history record survives the loop's two `continue` filters
and belongs to show `sid`. -/
def relevantB (sid : Int) (e : HistoryEntry) : Bool :=
  (e.action == "watch") && (e.media_type == "episode") && (entryShowId e == some sid)

/-- The subsequence of a page that is scanned into show `sid`'s slot. -/
def relevantFor (sid : Int) (entries : List HistoryEntry) : List HistoryEntry :=
  entries.filter (relevantB sid)

/-- The keep-if-strictly-newer update on a single show's slot. -/
def keepLater (cur : Option HistoryEntry) (e : HistoryEntry) : Option HistoryEntry :=
  match cur with
  | none => some e
  | some c => if c.watched_at < e.watched_at then some e else some c

/-- Folding one show's relevant records through `keepLater`. -/
def relFold (cur : Option HistoryEntry) (l : List HistoryEntry) : Option HistoryEntry :=
  l.foldl keepLater cur

/-- A concrete episode-watch record, for evaluating the fold. -/
def sampleEntry (hid sid t : Int) : HistoryEntry :=
  { history_id := hid
    watched_at := t
    action := "watch"
    media_type := "episode"
    media_data := .episode
      { ids := { trakt_id := hid, trakt_slug := none }
        show_ := { ids := { trakt_id := sid, trakt_slug := some "sample-show" }, title := "Sample Show" }
        season := 1
        episode := 1
        title := "Pilot" } }

/-! ### Mutating-call traces of `_mark_watched`, `_rate_input` and the
`unwatch` removal step -/

/-- The `watched_at` argument: `None`, the literal `"released"`, or a
datetime. -/
inductive WatchedAtArg where
  | absent
  | released
  | at (ts : Int)
deriving DecidableEq, Repr

/-- One mutating request to the remote service. -/
inductive MutCall where
  | markSeen (target : Input) (watched_at : WatchedAtArg)
  | rateCall (target : Input) (rating : Int)
  | removeHistory (history_id : Int)
deriving DecidableEq, Repr

/-- Answers the interactive prompts inside `_mark_watched` would receive:
the `"Set rating?"` confirmation, the value typed at the `"Rating"`
prompt, and the `"Really mark entire show as watched?"` confirmation. -/
structure MarkEnv where
  confirmSetRating : Bool
  promptedRating : Int
  confirmEntireShow : Bool
deriving DecidableEq, Repr

/-- What one `_mark_watched` run does: the mutating calls it issues in
order, and which rating prompts it shows. -/
structure MarkResult where
  calls : List MutCall
  setRatingConfirmShown : Bool
  ratingPromptShown : Bool
deriving DecidableEq, Repr

/-- `_mark_watched(input, watched_at=…, rating=…)`.  For a movie the
mark-as-seen call is followed by a rating call when a rating was supplied
or the user confirms (`if rating is not None or click.confirm(...)`), the
`"Rating"` prompt firing when the supplied rating is falsy (`if not
rating`).  An episode is only marked seen.  A whole show is marked seen
only after an extra confirmation. -/
def mark_watched (inp : Input) (watched_at : WatchedAtArg) (rating : Option Int)
    (env : MarkEnv) : MarkResult :=
  match inp with
  | .MovieId _ =>
    match rating with
    | some r =>
      let r' := if r = 0 then env.promptedRating else r
      { calls := [.markSeen inp watched_at, .rateCall inp r']
        setRatingConfirmShown := false
        ratingPromptShown := r = 0 }
    | none =>
      if env.confirmSetRating then
        { calls := [.markSeen inp watched_at, .rateCall inp env.promptedRating]
          setRatingConfirmShown := true
          ratingPromptShown := true }
      else
        { calls := [.markSeen inp watched_at]
          setRatingConfirmShown := true
          ratingPromptShown := false }
  | .EpisodeId _ _ _ =>
    { calls := [.markSeen inp watched_at]
      setRatingConfirmShown := false
      ratingPromptShown := false }
  | .TVShowId _ =>
    if env.confirmEntireShow then
      { calls := [.markSeen inp watched_at]
        setRatingConfirmShown := false
        ratingPromptShown := false }
    else
      { calls := []
        setRatingConfirmShown := false
        ratingPromptShown := false }

/-- `_rate_input(input, rating)`: every branch issues exactly one
`rate` call on the fetched object. -/
def rate_input (inp : Input) (rating : Int) : List MutCall :=
  [.rateCall inp rating]

/-- The removal step of `unwatch`: with `--yes` the confirmation is
skipped; otherwise `click.confirm(..., abort=True)` aborts the command
(`none`) when declined, and exactly one `sync/history/remove` request is
posted otherwise. -/
def unwatch_remove (history_id : Int) (yes confirmAnswer : Bool) : Option (List MutCall) :=
  if ¬yes ∧ ¬confirmAnswer then none else some [.removeHistory history_id]

/-- How the picking stage of `unwatch` ends. -/
inductive UnwatchOutcome where
  | indexError
  | cancelled
  | pickedEntry (e : HistoryEntry)
deriving DecidableEq, Repr

/-- The start of `unwatch`: `picked: HistoryEntry = data[0]` runs before
any emptiness check (an empty page raises `IndexError`), then the
interactive path re-picks through `_pick_item`. -/
def unwatch_pick (data : List HistoryEntry) (interactive urls : Bool)
    (script : List String) : Option UnwatchOutcome :=
  match data with
  | [] => some .indexError
  | first :: _ =>
    if interactive then
      match pick_item data urls script with
      | some (.picked e) => some (.pickedEntry e)
      | some .cancelled => some .cancelled
      | none => none
    else some (.pickedEntry first)

/-! ### The tail of `progress`: turning the watched-progress response
into a confirmed mark-watched call -/

/-- A parsed JSON value, as returned by `_trakt_request`. -/
inductive JVal where
  | null
  | jbool (b : Bool)
  | jnum (n : Int)
  | jstr (s : String)
  | jobj (fields : List (String × JVal))

/-- Dictionary lookup (`d.get(key)` / `key in d`). -/
def jLookup : List (String × JVal) → String → Option JVal
  | [], _ => none
  | (k, v) :: rest, key => if k = key then some v else jLookup rest key

/-- Python's `a or b` on two optional slugs: `None` and the empty string
are both falsy. -/
def pyOrStr (a b : Option String) : Option String :=
  match a with
  | some s => if s = "" then b else some s
  | none => b

/-- How a JSON value renders inside an f-string (only strings and
numbers occur in practice). -/
def jDisplay : JVal → String
  | .null => "None"
  | .jbool b => if b then "True" else "False"
  | .jnum n => toString n
  | .jstr s => s
  | .jobj _ => "{...}"

/-- `next_episode_title = next_ep.get("title")`, replaced by `"--"` when
missing or `None`. -/
def titleDisplay (v : Option JVal) : String :=
  match v with
  | none => "--"
  | some .null => "--"
  | some w => jDisplay w

/-- How the tail of the `progress` command ends. -/
inductive ProgOutcome where
  | noProgress
  | assertFailed
  | noNextEpisode
  | declined
  | marked (ep : Input)
deriving DecidableEq, Repr

/-- Observable result of the tail of `progress`: the outcome, the
mutating calls issued, the process exit code, and the confirmation
prompt shown (if the code reached it). -/
structure ProgResult where
  outcome : ProgOutcome
  calls : List MutCall
  exitCode : Nat
  confirmPrompt : Option String
deriving Repr

/-- Lines 680–723 of `progress`, given the parsed watched-progress
response (a JSON object's fields), the picked episode's and its show's
slugs and the show's title, the answer the user would give to the
confirmation, and the `--at` argument.  A falsy (empty) response is
reported and the command returns (exit code 0); a response without a
`next_episode` key, a non-object `next_episode`, a missing slug or a
non-integer season or episode number trips an `assert` (exit code 1); a
`None` `next_episode` is reported and the command returns (exit code 0);
otherwise the confirmation names the episode and show, and declining
returns (exit code 0) while confirming marks the episode watched. -/
def progressResolveNext (next_data : List (String × JVal)) (epSlug showSlug : Option String)
    (showTitle : String) (confirmAnswer : Bool) (watched_at : WatchedAtArg)
    (env : MarkEnv) : ProgResult :=
  match next_data with
  | [] => { outcome := .noProgress, calls := [], exitCode := 0, confirmPrompt := none }
  | _ :: _ =>
    match jLookup next_data "next_episode" with
    | none => { outcome := .assertFailed, calls := [], exitCode := 1, confirmPrompt := none }
    | some .null => { outcome := .noNextEpisode, calls := [], exitCode := 0, confirmPrompt := none }
    | some (.jobj nextEp) =>
      match pyOrStr epSlug showSlug with
      | none => { outcome := .assertFailed, calls := [], exitCode := 1, confirmPrompt := none }
      | some slug =>
        match jLookup nextEp "number", jLookup nextEp "season" with
        | some (.jnum episode), some (.jnum season) =>
          let epStr := titleDisplay (jLookup nextEp "title")
            ++ " (S" ++ toString season ++ "E" ++ toString episode ++ ")"
          let prompt := "Mark '" ++ epStr ++ "' from '" ++ showTitle ++ "' as watched?"
          if confirmAnswer then
            { outcome := .marked (.EpisodeId slug season episode)
              calls := (mark_watched (.EpisodeId slug season episode) watched_at none env).calls
              exitCode := 0
              confirmPrompt := some prompt }
          else
            { outcome := .declined, calls := [], exitCode := 0, confirmPrompt := some prompt }
        | _, _ => { outcome := .assertFailed, calls := [], exitCode := 1, confirmPrompt := none }
    | some _ => { outcome := .assertFailed, calls := [], exitCode := 1, confirmPrompt := none }

/-! ### Evaluation checks on concrete inputs -/

example : pyInt "2" = some 2 := by decide
example : pyInt " -13 " = some (-13) := by decide
example : pyInt "1_0" = some 10 := by decide
example : pyInt "a" = none := by decide
example : pyInt "1_" = none := by decide
example : parse_url_to_input "https://trakt.tv/shows/breaking-bad/seasons/1/episodes/2"
    = .ok (.EpisodeId "breaking-bad" 1 2) := by rfl
example : parse_url_to_input "https://trakt.tv/shows/breaking-bad/seasons/1"
    = .ok (.TVShowId "breaking-bad") := by rfl
example : parse_url_to_input "https://trakt.tv/movies/heat-1995"
    = .ok (.MovieId "heat-1995") := by rfl
example : parse_url_to_input "https://trakt.tv" =
    .error "Invalid URL parts: " := by rfl
example : pick_item [10, 20] false ["2"] = some (.picked 20) := by rfl
example : pick_item [10, 20] false [""] = some (.picked 10) := by rfl
example : pick_item [10, 20] false ["abc", "0", "3", "q"] = some .cancelled := by rfl
example : pick_item [10, 20] false ["u", "abc"] = none := by rfl
example : search_menu "m" = { reported := false, action := .search (some "movie") } := by rfl
example : search_menu "U" = { reported := false, action := .delegateUrl } := by rfl
example : search_menu "x" = { reported := true, action := .search none } := by rfl
example : search_menu "a" = { reported := false, action := .search none } := by rfl
example : search_menu "" = { reported := true, action := .search none } := by rfl
example : progressFold [sampleEntry 1 42 100, sampleEntry 2 42 200]
    = some [(42, sampleEntry 2 42 200)] := by rfl
example : progressFold [sampleEntry 1 42 100, sampleEntry 2 42 100]
    = some [(42, sampleEntry 1 42 100)] := by rfl
example : progressFold [sampleEntry 1 1 100, sampleEntry 2 2 300, sampleEntry 3 1 200]
    = some [(1, sampleEntry 3 1 200), (2, sampleEntry 2 2 300)] := by rfl
example : unwatch_pick [] true false ["1"] = some .indexError := by rfl
example : unwatch_pick [sampleEntry 1 42 100] false false [] =
    some (.pickedEntry (sampleEntry 1 42 100)) := by rfl
example :
    (progressResolveNext [("next_episode", .jobj [("season", .jnum 2), ("number", .jnum 5), ("title", .jstr "Grilled")])]
      (some "breaking-bad") none "Breaking Bad" true .absent ⟨false, 0, false⟩).calls
    = [.markSeen (.EpisodeId "breaking-bad" 2 5) .absent] := by rfl
example :
    (progressResolveNext [("next_episode", .jobj [("season", .jnum 2), ("number", .jnum 5)])]
      (some "breaking-bad") none "Breaking Bad" false .absent ⟨false, 0, false⟩).confirmPrompt
    = some "Mark '-- (S2E5)' from 'Breaking Bad' as watched?" := by rfl
example :
    (progressResolveNext [("next_episode", .null)]
      (some "breaking-bad") none "Breaking Bad" true .absent ⟨false, 0, false⟩).exitCode = 0 := by rfl
example :
    (progressResolveNext [("aired", .jnum 3)]
      (some "breaking-bad") none "Breaking Bad" true .absent ⟨false, 0, false⟩).outcome
    = .assertFailed := by rfl

/-! ### Association-list lemmas for the `prog` dictionary -/

lemma lookupProg_append (p : ProgMap) (k : Int) (v : HistoryEntry) (sid : Int) :
    lookupProg (p ++ [(k, v)]) sid =
      match lookupProg p sid with
      | some w => some w
      | none => if k = sid then some v else none := by
  induction p with
  | nil => simp [lookupProg]
  | cons hd tl ih =>
    obtain ⟨a, b⟩ := hd
    by_cases hak : a = sid
    · simp [lookupProg, hak]
    · simp [lookupProg, hak, ih]

lemma lookupProg_replace (p : ProgMap) (k : Int) (e : HistoryEntry) (sid : Int) :
    lookupProg (replaceProg p k e) sid =
      if k = sid then (lookupProg p sid).map (fun _ => e) else lookupProg p sid := by
  induction p with
  | nil => simp [replaceProg, lookupProg]
  | cons hd tl ih =>
    obtain ⟨a, b⟩ := hd
    have hcons : replaceProg ((a, b) :: tl) k e
        = (if a = k then (a, e) else (a, b)) :: replaceProg tl k e := by
      simp only [replaceProg, List.map_cons]
    rw [hcons]
    by_cases hak : a = k
    · rw [if_pos hak]
      by_cases has : a = sid
      · have hks : k = sid := hak.symm.trans has
        simp [lookupProg, has, hks]
      · have hks : ¬ k = sid := fun hk => has (hak.trans hk)
        simp [lookupProg, has, hks, ih]
    · rw [if_neg hak]
      by_cases has : a = sid
      · have hks : ¬ k = sid := fun hk => hak (has.trans hk.symm)
        simp [lookupProg, has, hks]
      · simp [lookupProg, has, ih]

/-! ### The per-show fold seen through one key -/

lemma relFold_cons (c : Option HistoryEntry) (e : HistoryEntry) (l : List HistoryEntry) :
    relFold c (e :: l) = relFold (keepLater c e) l := rfl

/-- One loop iteration changes the dictionary at key `sid` exactly when
the record is relevant to `sid`, and then by a `keepLater` update. -/
lemma progressStep_lookup (prog p1 : ProgMap) (e : HistoryEntry) (sid : Int)
    (h : progressStep prog e = some p1) :
    lookupProg p1 sid =
      if relevantB sid e then keepLater (lookupProg prog sid) e
      else lookupProg prog sid := by
  by_cases hA : e.action = "watch"
  · by_cases hM : e.media_type = "episode"
    · cases hmd : e.media_data with
      | movie m => simp [progressStep, hA, hM, hmd] at h
      | episode ed =>
        cases hlk : lookupProg prog ed.show_.ids.trakt_id with
        | none =>
          have hp1 : some (prog ++ [(ed.show_.ids.trakt_id, e)]) = some p1 := by
            simpa [progressStep, hA, hM, hmd, hlk] using h
          obtain rfl : prog ++ [(ed.show_.ids.trakt_id, e)] = p1 := Option.some.inj hp1
          by_cases hks : ed.show_.ids.trakt_id = sid
          · have hrb : relevantB sid e = true := by
              simp [relevantB, hA, hM, entryShowId, hmd, hks]
            subst hks
            rw [hrb, lookupProg_append, hlk, if_pos rfl]
            simp [keepLater, hlk]
          · have hrb : relevantB sid e = false := by
              simp [relevantB, entryShowId, hmd, hks]
            rw [hrb, lookupProg_append]
            cases hls : lookupProg prog sid with
            | none => simp [hks]
            | some w => simp
        | some cur =>
          by_cases hw : cur.watched_at < e.watched_at
          · have hp1 : some (replaceProg prog ed.show_.ids.trakt_id e) = some p1 := by
              simpa [progressStep, hA, hM, hmd, hlk, hw] using h
            obtain rfl : replaceProg prog ed.show_.ids.trakt_id e = p1 := Option.some.inj hp1
            by_cases hks : ed.show_.ids.trakt_id = sid
            · have hrb : relevantB sid e = true := by
                simp [relevantB, hA, hM, entryShowId, hmd, hks]
              subst hks
              rw [hrb, lookupProg_replace, if_pos rfl, hlk]
              simp [keepLater, hlk, hw]
            · have hrb : relevantB sid e = false := by
                simp [relevantB, entryShowId, hmd, hks]
              rw [hrb, lookupProg_replace, if_neg hks]
              simp
          · have hp1 : some prog = some p1 := by
              simpa [progressStep, hA, hM, hmd, hlk, hw] using h
            obtain rfl : prog = p1 := Option.some.inj hp1
            by_cases hks : ed.show_.ids.trakt_id = sid
            · have hrb : relevantB sid e = true := by
                simp [relevantB, hA, hM, entryShowId, hmd, hks]
              subst hks
              rw [hrb, hlk]
              simp [keepLater, hw]
            · have hrb : relevantB sid e = false := by
                simp [relevantB, entryShowId, hmd, hks]
              rw [hrb]
              simp
    · have hp1 : some prog = some p1 := by
        simpa [progressStep, hA, hM] using h
      obtain rfl : prog = p1 := Option.some.inj hp1
      have hrb : relevantB sid e = false := by simp [relevantB, hM]
      rw [hrb]
      simp
  · have hp1 : some prog = some p1 := by
      simpa [progressStep, hA] using h
    obtain rfl : prog = p1 := Option.some.inj hp1
    have hrb : relevantB sid e = false := by simp [relevantB, hA]
    rw [hrb]
    simp

/-- Running the whole loop, the slot of show `sid` holds exactly the
`keepLater` fold of the records relevant to `sid`, in page order. -/
lemma progressFoldFrom_lookup (entries : List HistoryEntry) :
    ∀ (prog prog' : ProgMap) (sid : Int),
      progressFoldFrom prog entries = some prog' →
      lookupProg prog' sid = relFold (lookupProg prog sid) (relevantFor sid entries) := by
  induction entries with
  | nil =>
    intro prog prog' sid h
    have : prog = prog' := by simpa [progressFoldFrom] using h
    subst this
    simp [relevantFor, relFold]
  | cons e rest ih =>
    intro prog prog' sid h
    cases hstep : progressStep prog e with
    | none => simp [progressFoldFrom, hstep] at h
    | some p1 =>
      have h' : progressFoldFrom p1 rest = some prog' := by
        simpa [progressFoldFrom, hstep] using h
      have hstepl := progressStep_lookup prog p1 e sid hstep
      by_cases hrb : relevantB sid e
      · rw [relevantFor, List.filter_cons_of_pos hrb, relFold_cons]
        rw [ih p1 prog' sid h', hstepl, if_pos hrb]
        rfl
      · rw [relevantFor, List.filter_cons_of_neg hrb]
        rw [ih p1 prog' sid h', hstepl, if_neg hrb]
        rfl

lemma relFold_some_spec (l : List HistoryEntry) :
    ∀ (c e : HistoryEntry), relFold (some c) l = some e →
      (e = c ∧ ∀ x ∈ l, x.watched_at ≤ c.watched_at) ∨
      (∃ l1 l2, l = l1 ++ e :: l2 ∧ c.watched_at < e.watched_at ∧
        (∀ x ∈ l1, x.watched_at < e.watched_at) ∧
        (∀ x ∈ l2, x.watched_at ≤ e.watched_at)) := by
  induction l with
  | nil =>
    intro c e h
    left
    have : c = e := by simpa [relFold] using h
    exact ⟨this.symm, by simp⟩
  | cons y rest ih =>
    intro c e h
    rw [relFold_cons] at h
    by_cases hcy : c.watched_at < y.watched_at
    · have hk : keepLater (some c) y = some y := by simp [keepLater, hcy]
      rw [hk] at h
      rcases ih y e h with ⟨rfl, hall⟩ | ⟨l1, l2, heq, hlt, h1, h2⟩
      · right
        exact ⟨[], rest, by simp, hcy, by simp, hall⟩
      · right
        refine ⟨y :: l1, l2, by simp [heq], lt_trans hcy hlt, ?_, h2⟩
        intro x hx
        rcases List.mem_cons.mp hx with rfl | hx'
        · exact hlt
        · exact h1 x hx'
    · have hk : keepLater (some c) y = some c := by simp [keepLater, hcy]
      rw [hk] at h
      rcases ih c e h with ⟨rfl, hall⟩ | ⟨l1, l2, heq, hlt, h1, h2⟩
      · left
        refine ⟨rfl, ?_⟩
        intro x hx
        rcases List.mem_cons.mp hx with rfl | hx'
        · exact le_of_not_lt hcy
        · exact hall x hx'
      · right
        refine ⟨y :: l1, l2, by simp [heq], hlt, ?_, h2⟩
        intro x hx
        rcases List.mem_cons.mp hx with rfl | hx'
        · exact lt_of_le_of_lt (le_of_not_lt hcy) hlt
        · exact h1 x hx'

lemma relFold_isSome (l : List HistoryEntry) : ∀ c : HistoryEntry, (relFold (some c) l).isSome := by
  induction l with
  | nil => intro c; simp [relFold]
  | cons y rest ih =>
    intro c
    rw [relFold_cons]
    by_cases hcy : c.watched_at < y.watched_at
    · have hk : keepLater (some c) y = some y := by simp [keepLater, hcy]
      rw [hk]; exact ih y
    · have hk : keepLater (some c) y = some c := by simp [keepLater, hcy]
      rw [hk]; exact ih c

lemma relFold_none_spec (l : List HistoryEntry) (e : HistoryEntry)
    (h : relFold none l = some e) :
    ∃ l1 l2, l = l1 ++ e :: l2 ∧ (∀ x ∈ l1, x.watched_at < e.watched_at) ∧
      (∀ x ∈ l2, x.watched_at ≤ e.watched_at) := by
  cases l with
  | nil => simp [relFold] at h
  | cons y rest =>
    rw [relFold_cons] at h
    have hk : keepLater none y = some y := rfl
    rw [hk] at h
    rcases relFold_some_spec rest y e h with ⟨rfl, hall⟩ | ⟨l1, l2, heq, hlt, h1, h2⟩
    · exact ⟨[], rest, by simp, by simp, hall⟩
    · refine ⟨y :: l1, l2, by simp [heq], ?_, h2⟩
      intro x hx
      rcases List.mem_cons.mp hx with rfl | hx'
      · exact hlt
      · exact h1 x hx'

/-! ### Claim C1 -/

/-- Claim C1 counterexample: two `watch`/`episode` records for show 7
with equal `watched_at` — the fold retains the one seen first in page
order (the comparison is strict `>`), not the one seen later as the
claim's last-seen-wins tie-break asserts. -/
theorem C1_counterexample :
    progressFold [sampleEntry 1 7 100, sampleEntry 2 7 100]
      = some [(7, sampleEntry 1 7 100)] ∧
    sampleEntry 1 7 100 ≠ sampleEntry 2 7 100 := by
  constructor
  · rfl
  · decide

/-- Claim C1 (amended): for every history page whose scan completes, the
`prog` dictionary maps each show id to a single retained entry that
occurs among the scanned `watch`/`episode` records for that show, has
the maximum `watched_at` among them, and — on ties — is the one seen
FIRST in page order (every strictly earlier relevant record has strictly
smaller `watched_at`); moreover every show with at least one relevant
record is mapped. -/
theorem C1_amended (entries : List HistoryEntry) (prog : ProgMap)
    (h : progressFold entries = some prog) (sid : Int) :
    (∀ e, lookupProg prog sid = some e →
      ∃ l1 l2, relevantFor sid entries = l1 ++ e :: l2 ∧
        (∀ x ∈ l1, x.watched_at < e.watched_at) ∧
        (∀ x ∈ l2, x.watched_at ≤ e.watched_at)) ∧
    (relevantFor sid entries ≠ [] → ∃ e, lookupProg prog sid = some e) := by
  have hl := progressFoldFrom_lookup entries [] prog sid h
  have h0 : lookupProg ([] : ProgMap) sid = none := rfl
  rw [h0] at hl
  constructor
  · intro e he
    rw [he] at hl
    exact relFold_none_spec _ _ hl.symm
  · intro hne
    rw [hl]
    cases hrel : relevantFor sid entries with
    | nil => exact absurd hrel hne
    | cons y rest =>
      rw [relFold_cons]
      have hk : keepLater none y = some y := rfl
      rw [hk]
      exact Option.isSome_iff_exists.mp (relFold_isSome rest y)

/-- Claim C1 witness: the spec's own example page — two records for show
42 at times 100 and 200 — reconciles to the 200 record, as the amended
claim states. -/
theorem C1_amended_witness :
    ∃ l1 l2,
      relevantFor 42 [sampleEntry 1 42 100, sampleEntry 2 42 200]
        = l1 ++ (sampleEntry 2 42 200) :: l2 ∧
      (∀ x ∈ l1, x.watched_at < (sampleEntry 2 42 200).watched_at) ∧
      (∀ x ∈ l2, x.watched_at ≤ (sampleEntry 2 42 200).watched_at) :=
  (C1_amended [sampleEntry 1 42 100, sampleEntry 2 42 200]
    [(42, sampleEntry 2 42 200)] (by rfl) 42).1 (sampleEntry 2 42 200) (by rfl)

/-! ### Claim C2 -/

/-- Claim C2 counterexample: a `shows/…/seasons/…` URL with no
`episodes` segment does NOT fail — it falls through to the
`["shows", id, *_]` pattern and resolves to a show reference. -/
theorem C2_counterexample :
    parse_url_to_input "https://trakt.tv/shows/breaking-bad/seasons/1"
      = .ok (.TVShowId "breaking-bad") := by rfl

/-- Claim C2 (amended): the resolver fails for an empty path and for an
episode-shaped path whose season or episode token is not an integer, but
a `["shows", id, "seasons", season]` path with no `"episodes"` segment
resolves to `TVShowId id` instead of failing. -/
theorem C2_amended (url : String) :
    (urlPathParts url = [] → ∃ msg, parse_url_to_input url = .error msg) ∧
    (∀ id season, urlPathParts url = ["shows", id, "seasons", season] →
      parse_url_to_input url = .ok (.TVShowId id)) ∧
    (∀ id season episode rest,
      urlPathParts url
          = "shows" :: id :: "seasons" :: season :: "episodes" :: episode :: rest →
      pyInt season = none ∨ pyInt episode = none →
      ∃ msg, parse_url_to_input url = .error msg) := by
  refine ⟨?_, ?_, ?_⟩
  · intro h
    refine ⟨"Invalid URL parts: " ++ String.intercalate "/" [], ?_⟩
    simp only [parse_url_to_input]
    rw [h]
  · intro id season hparts
    simp only [parse_url_to_input]
    rw [hparts]
    rfl
  · intro id season episode rest hparts hint
    have hred : parse_url_to_input url =
        match pyInt season, pyInt episode with
        | some s, some e => Except.ok (Input.EpisodeId id s e)
        | none, _ => Except.error ("invalid literal for int: " ++ season)
        | some _, none => Except.error ("invalid literal for int: " ++ episode) := by
      simp only [parse_url_to_input]
      rw [hparts]
      rfl
    rw [hred]
    rcases hint with hs | he
    · rw [hs]
      exact ⟨_, rfl⟩
    · cases hps : pyInt season with
      | none => exact ⟨_, rfl⟩
      | some s =>
        rw [he]
        exact ⟨_, rfl⟩

/-- Claim C2 witness: one URL of each amended shape — a URL with an empty
path fails, a seasons-without-episodes URL resolves to the show, and a
non-numeric season token fails. -/
theorem C2_amended_witness :
    (∃ msg, parse_url_to_input "https://trakt.tv" = .error msg) ∧
    parse_url_to_input "https://trakt.tv/shows/the-wire/seasons/3"
      = .ok (.TVShowId "the-wire") ∧
    (∃ msg, parse_url_to_input "https://trakt.tv/shows/the-wire/seasons/x/episodes/2"
      = .error msg) :=
  ⟨(C2_amended "https://trakt.tv").1 (by rfl),
   (C2_amended "https://trakt.tv/shows/the-wire/seasons/3").2.1 "the-wire" "3" (by rfl),
   (C2_amended "https://trakt.tv/shows/the-wire/seasons/x/episodes/2").2.2
     "the-wire" "x" "2" [] (by rfl) (Or.inl (by rfl))⟩

/-! ### Claim C3 -/

/-- Claim C3 counterexample: for the unrecognized key `x` the menu
reports the input but then proceeds to issue an unscoped search — it
does not re-prompt, contradicting the claim that an unrecognized kind
selection never issues a search. -/
theorem C3_counterexample :
    search_menu "x" = { reported := true, action := .search none } := by rfl

/-- Claim C3 (amended): blank or unrecognized input is reported, but the
menu does not re-prompt — the key is normalized to `"A"` and an unscoped
(`media_type = None`) search is issued. -/
theorem C3_amended (p : String)
    (h : pyStrip (pyUpper p) = "" ∨ pyUpper p ∉ allowed) :
    search_menu p = { reported := true, action := .search none } := by
  have hnotmem : pyUpper p ∉ allowed := by
    rcases h with hblank | hnm
    · intro hmem
      simp [allowed] at hmem
      rcases hmem with h1 | h1 | h1 | h1 | h1 | h1 <;>
        rw [h1] at hblank <;> exact absurd hblank (by decide)
    · exact hnm
  have hcontf : allowed.contains (pyUpper p) = false := by
    cases hc : allowed.contains (pyUpper p) with
    | false => rfl
    | true => exact absurd (by simpa using hc) hnotmem
  have hnorm : normalizeKind (pyUpper p) = "A" := by
    simp [normalizeKind, hcontf, hnotmem]
  have hA : mediaTypeFor "A" = none := rfl
  rcases h with hblank | _
  · simp [search_menu, hblank, hnorm, hA]
  · by_cases hblank : pyStrip (pyUpper p) = ""
    · simp [search_menu, hblank, hnorm, hA]
    · simp [search_menu, hblank, hcontf, hnotmem, hnorm, hA]

/-- Claim C3 witness: the empty keypress is reported and still leads to
an unscoped search. -/
theorem C3_amended_witness :
    search_menu "" = { reported := true, action := .search none } :=
  C3_amended "" (Or.inl (by rfl))

/-! ### Claim C7 -/

/-- Claim C7 (confirmed): the end-to-end scenario URL resolves to exactly
the episode reference for breaking-bad season 1 episode 2. -/
theorem C7_url_resolves :
    parse_url_to_input "https://trakt.tv/shows/breaking-bad/seasons/1/episodes/2"
      = .ok (.EpisodeId "breaking-bad" 1 2) := by rfl

/-! ### Claim C9 -/

/-- Claim C9 (confirmed): on an empty history page `unwatch` hits the
unguarded `data[0]` and raises `IndexError` — whatever the flags and
whatever the user would have typed, the picker is never consulted and no
empty-page report is produced. -/
theorem C9_empty_history (interactive urls : Bool) (script : List String) :
    unwatch_pick [] interactive urls script = some .indexError := by rfl

/-! ### Claim C10 -/

/-- Claim C10 (confirmed): `_mark_watched` on an episode issues exactly
the one mark-as-seen call — no rating call, no `"Set rating?"`
confirmation and no `"Rating"` prompt, whatever rating was supplied;
a supplied (non-falsy) rating takes effect only for movies. -/
theorem C10_episode_rating_ignored (id : String) (s e : Int) (wa : WatchedAtArg)
    (r : Option Int) (env : MarkEnv) :
    (mark_watched (.EpisodeId id s e) wa r env).calls
        = [.markSeen (.EpisodeId id s e) wa] ∧
    (mark_watched (.EpisodeId id s e) wa r env).ratingPromptShown = false ∧
    (mark_watched (.EpisodeId id s e) wa r env).setRatingConfirmShown = false ∧
    (∀ rv : Int, rv ≠ 0 →
      (mark_watched (.MovieId id) wa (some rv) env).calls
        = [.markSeen (.MovieId id) wa, .rateCall (.MovieId id) rv]) := by
  refine ⟨rfl, rfl, rfl, ?_⟩
  intro rv hrv
  simp [mark_watched, hrv]

/-- Claim C10 witness: an episode marked with rating 7 issues only the
mark-as-seen call, while a movie marked with rating 7 also rates. -/
theorem C10_episode_rating_ignored_witness :
    (mark_watched (.MovieId "heat-1995") .released (some 7) ⟨false, 0, false⟩).calls
      = [.markSeen (.MovieId "heat-1995") .released, .rateCall (.MovieId "heat-1995") 7] :=
  (C10_episode_rating_ignored "heat-1995" 1 1 .released (some 7)
    ⟨false, 0, false⟩).2.2.2 7 (by decide)

/-! ### Claim C4 -/

/-- Claim C4 counterexample: a `null` `next_episode` is reported and the
command returns normally — exit code 0, not the non-zero exit the claim
asserts (no mutating call is issued, as the claim also says). -/
theorem C4_counterexample :
    (progressResolveNext [("next_episode", JVal.null)] (some "breaking-bad") none
        "Breaking Bad" true .absent ⟨false, 0, false⟩).outcome = .noNextEpisode ∧
    (progressResolveNext [("next_episode", JVal.null)] (some "breaking-bad") none
        "Breaking Bad" true .absent ⟨false, 0, false⟩).exitCode = 0 ∧
    (progressResolveNext [("next_episode", JVal.null)] (some "breaking-bad") none
        "Breaking Bad" true .absent ⟨false, 0, false⟩).calls = [] :=
  ⟨rfl, rfl, rfl⟩

/-- Claim C4 (amended): in both failure cases no mutating call is issued,
but the exits differ from the claim — a response that lacks the
`next_episode` key trips an `assert` (an unhandled `AssertionError`,
exit code 1, not a reported `NoProgress`), while a `null` `next_episode`
is reported with a message and the command returns with exit code 0. -/
theorem C4_amended (nd : List (String × JVal)) (epS shS : Option String) (title : String)
    (ca : Bool) (wa : WatchedAtArg) (env : MarkEnv) :
    (nd ≠ [] → jLookup nd "next_episode" = none →
      progressResolveNext nd epS shS title ca wa env
        = { outcome := .assertFailed, calls := [], exitCode := 1, confirmPrompt := none }) ∧
    (jLookup nd "next_episode" = some .null →
      progressResolveNext nd epS shS title ca wa env
        = { outcome := .noNextEpisode, calls := [], exitCode := 0, confirmPrompt := none }) := by
  constructor
  · intro hne hl
    obtain ⟨x, t, rfl⟩ := List.exists_cons_of_ne_nil hne
    simp [progressResolveNext, hl]
  · intro hl
    have hne : nd ≠ [] := by
      intro hnil
      rw [hnil] at hl
      simp [jLookup] at hl
    obtain ⟨x, t, rfl⟩ := List.exists_cons_of_ne_nil hne
    simp [progressResolveNext, hl]

/-- Claim C4 witness: a non-empty response with no `next_episode` key
trips the assert with exit code 1; a `null` `next_episode` returns with
exit code 0; neither issues a call. -/
theorem C4_amended_witness :
    progressResolveNext [("aired", .jnum 3)] (some "the-wire") none "The Wire"
        true .absent ⟨true, 5, true⟩
      = { outcome := .assertFailed, calls := [], exitCode := 1, confirmPrompt := none } ∧
    progressResolveNext [("next_episode", .null)] (some "the-wire") none "The Wire"
        false .released ⟨true, 5, true⟩
      = { outcome := .noNextEpisode, calls := [], exitCode := 0, confirmPrompt := none } :=
  ⟨(C4_amended [("aired", .jnum 3)] (some "the-wire") none "The Wire"
      true .absent ⟨true, 5, true⟩).1 (List.cons_ne_nil _ _) rfl,
   (C4_amended [("next_episode", .null)] (some "the-wire") none "The Wire"
      false .released ⟨true, 5, true⟩).2 rfl⟩

/-! ### Claim C5 -/

/-- Claim C5 counterexample: `_mark_watched` on a movie with a supplied
rating issues TWO mutating calls (mark-as-seen then rate), not exactly
one as the claim asserts. -/
theorem C5_counterexample :
    (mark_watched (.MovieId "heat-1995") .absent (some 8) ⟨false, 0, false⟩).calls
      = [.markSeen (.MovieId "heat-1995") .absent, .rateCall (.MovieId "heat-1995") 8] ∧
    ((mark_watched (.MovieId "heat-1995") .absent (some 8) ⟨false, 0, false⟩).calls).length
      = 2 :=
  ⟨rfl, rfl⟩

/-- Claim C5 (amended): `rate` always issues exactly one mutating call,
and the `unwatch` removal step issues exactly one when it is not
aborted; `markWatched` issues at most two — a mark-as-seen call first
when it issues any, possibly followed by a movie rating call — and can
issue zero only when a whole-show confirmation is declined. -/
theorem C5_amended (inp : Input) (wa : WatchedAtArg) (r : Option Int) (env : MarkEnv)
    (rating hid : Int) (yes ca : Bool) :
    (rate_input inp rating).length = 1 ∧
    (∀ calls, unwatch_remove hid yes ca = some calls → calls = [.removeHistory hid]) ∧
    (mark_watched inp wa r env).calls.length ≤ 2 ∧
    ((mark_watched inp wa r env).calls ≠ [] →
      (mark_watched inp wa r env).calls.head? = some (.markSeen inp wa)) ∧
    ((mark_watched inp wa r env).calls = [] →
      (∃ id, inp = .TVShowId id) ∧ env.confirmEntireShow = false) := by
  refine ⟨rfl, ?_, ?_, ?_, ?_⟩
  · intro calls h
    unfold unwatch_remove at h
    split at h
    · simp at h
    · exact (Option.some.inj h).symm
  · cases inp with
    | MovieId id =>
      cases r with
      | some rv => simp [mark_watched]
      | none => by_cases hc : env.confirmSetRating <;> simp [mark_watched, hc]
    | EpisodeId id s e => simp [mark_watched]
    | TVShowId id => by_cases hc : env.confirmEntireShow <;> simp [mark_watched, hc]
  · cases inp with
    | MovieId id =>
      cases r with
      | some rv => intro _; rfl
      | none =>
        by_cases hc : env.confirmSetRating <;> intro _ <;> simp [mark_watched, hc]
    | EpisodeId id s e => intro _; rfl
    | TVShowId id =>
      by_cases hc : env.confirmEntireShow <;> intro hne <;>
        simp [mark_watched, hc] at hne ⊢
  · cases inp with
    | MovieId id =>
      cases r with
      | some rv => intro hz; simp [mark_watched] at hz
      | none =>
        by_cases hc : env.confirmSetRating <;> intro hz <;>
          simp [mark_watched, hc] at hz
    | EpisodeId id s e => intro hz; simp [mark_watched] at hz
    | TVShowId id =>
      by_cases hc : env.confirmEntireShow <;> intro hz
      · simp [mark_watched, hc] at hz
      · exact ⟨⟨id, rfl⟩, by simpa using hc⟩

/-- Claim C5 witness: the confirmed removal issues exactly the one
removal request, and a declined whole-show confirmation is the zero-call
case. -/
theorem C5_amended_witness :
    [MutCall.removeHistory 9] = [MutCall.removeHistory 9] ∧
    ((∃ id, (Input.TVShowId "the-wire") = Input.TVShowId id) ∧
      (⟨true, 5, false⟩ : MarkEnv).confirmEntireShow = false) :=
  ⟨(C5_amended (.TVShowId "the-wire") .absent none ⟨true, 5, false⟩ 7 9 true false).2.1
      [.removeHistory 9] rfl,
   (C5_amended (.TVShowId "the-wire") .absent none ⟨true, 5, false⟩ 7 9 true false).2.2.2.2
      rfl⟩

/-! ### Claim C6 -/

/-- Claim C6 (confirmed): for a non-empty list, whenever `_pick_item`
returns a pick it is `items[k-1]` for some 1-based in-range `k`; a line
that does not parse as an integer, or parses out of range, just repeats
the loop — it is never fatal and never produces an out-of-range pick. -/
theorem C6_picker (α : Type) (items : List α) (hne : items ≠ []) :
    (∀ (su : Bool) (script : List String) (a : α),
      pick_item items su script = some (.picked a) →
      ∃ k, 1 ≤ k ∧ k ≤ items.length ∧ items[k-1]? = some a) ∧
    (∀ (su : Bool) (line : String) (rest : List String),
      handle_pick_result (if line = "" then "1" else line) = .invalid →
      pick_item items su (line :: rest) = pick_item items su rest) ∧
    (∀ (su : Bool) (line : String) (rest : List String) (n : Int),
      handle_pick_result (if line = "" then "1" else line) = .num n →
      (n < 1 ∨ (items.length : Int) < n) →
      pick_item items su (line :: rest) = pick_item items su rest) := by
  refine ⟨?_, ?_, ?_⟩
  · intro su script
    induction script generalizing su with
    | nil => intro a h; simp [pick_item] at h
    | cons line rest ih =>
      intro a h
      simp only [pick_item] at h
      cases hstep : handle_pick_result (if line = "" then "1" else line) with
      | abort =>
        rw [hstep] at h
        simp at h
      | toggleU =>
        rw [hstep] at h
        exact ih (!su) a h
      | invalid =>
        rw [hstep] at h
        exact ih su a h
      | num n =>
        rw [hstep] at h
        have h' : (if hcond : n < 1 ∨ (items.length : Int) < n then pick_item items su rest
            else some (PickOutcome.picked (items.get ⟨n.toNat - 1, by omega⟩)))
            = some (PickOutcome.picked a) := h
        by_cases hr : n < 1 ∨ (items.length : Int) < n
        · rw [dif_pos hr] at h'
          exact ih su a h'
        · rw [dif_neg hr] at h'
          have hb : n.toNat - 1 < items.length := by omega
          have hget : items.get ⟨n.toNat - 1, hb⟩ = a :=
            PickOutcome.picked.inj (Option.some.inj h')
          refine ⟨n.toNat, by omega, by omega, ?_⟩
          rw [← hget]
          simp [List.getElem?_eq_getElem hb, List.get_eq_getElem]
  · intro su line rest hstep
    simp only [pick_item]
    rw [hstep]
  · intro su line rest n hstep hr
    simp only [pick_item]
    rw [hstep]
    exact dif_pos hr

/-- Claim C6 witness: on the two-item list, after one non-numeric line
the loop repeats and the pick `2` returns the second item (1-based,
in range). -/
theorem C6_picker_witness :
    ∃ k, 1 ≤ k ∧ k ≤ 2 ∧ [10, 20][k-1]? = some 20 :=
  (C6_picker Nat [10, 20] (by decide)).1 false ["abc", "2"] 20 (by rfl)

/-! ### Claim C8 -/

/-- Claim C8 (confirmed): once the next episode is computed, the yes/no
confirmation names the episode string and the show title; declining
returns with exit code 0 and no mutating call, and only confirming
issues the single mark-as-seen call — after the same prompt. -/
theorem C8_confirm (nd nextEp : List (String × JVal)) (epS shS : Option String)
    (slug title : String) (n s : Int) (wa : WatchedAtArg) (env : MarkEnv)
    (hnd : jLookup nd "next_episode" = some (.jobj nextEp))
    (hslug : pyOrStr epS shS = some slug)
    (hn : jLookup nextEp "number" = some (.jnum n))
    (hs : jLookup nextEp "season" = some (.jnum s)) :
    (progressResolveNext nd epS shS title false wa env
      = { outcome := .declined, calls := [], exitCode := 0,
          confirmPrompt := some ("Mark '"
            ++ (titleDisplay (jLookup nextEp "title")
                ++ " (S" ++ toString s ++ "E" ++ toString n ++ ")")
            ++ "' from '" ++ title ++ "' as watched?") }) ∧
    (progressResolveNext nd epS shS title true wa env
      = { outcome := .marked (.EpisodeId slug s n)
          calls := [.markSeen (.EpisodeId slug s n) wa]
          exitCode := 0
          confirmPrompt := some ("Mark '"
            ++ (titleDisplay (jLookup nextEp "title")
                ++ " (S" ++ toString s ++ "E" ++ toString n ++ ")")
            ++ "' from '" ++ title ++ "' as watched?") }) := by
  have hne : nd ≠ [] := by
    intro hnil
    rw [hnil] at hnd
    simp [jLookup] at hnd
  obtain ⟨x, t, rfl⟩ := List.exists_cons_of_ne_nil hne
  constructor <;> simp [progressResolveNext, hnd, hslug, hn, hs, mark_watched]

/-- Claim C8 witness: for a concrete progress response the prompt names
`Grilled (S2E5)` and `Breaking Bad`; declining exits 0 with no calls and
confirming issues the one mark-as-seen call. -/
theorem C8_confirm_witness :
    (progressResolveNext
        [("next_episode", .jobj [("season", .jnum 2), ("number", .jnum 5), ("title", .jstr "Grilled")])]
        (some "breaking-bad") none "Breaking Bad" false .absent ⟨false, 0, false⟩
      = { outcome := .declined, calls := [], exitCode := 0,
          confirmPrompt := some "Mark 'Grilled (S2E5)' from 'Breaking Bad' as watched?" }) ∧
    (progressResolveNext
        [("next_episode", .jobj [("season", .jnum 2), ("number", .jnum 5), ("title", .jstr "Grilled")])]
        (some "breaking-bad") none "Breaking Bad" true .absent ⟨false, 0, false⟩
      = { outcome := .marked (.EpisodeId "breaking-bad" 2 5)
          calls := [.markSeen (.EpisodeId "breaking-bad" 2 5) .absent]
          exitCode := 0
          confirmPrompt := some "Mark 'Grilled (S2E5)' from 'Breaking Bad' as watched?" }) :=
  C8_confirm
    [("next_episode", .jobj [("season", .jnum 2), ("number", .jnum 5), ("title", .jstr "Grilled")])]
    [("season", .jnum 2), ("number", .jnum 5), ("title", .jstr "Grilled")]
    (some "breaking-bad") none "breaking-bad" "Breaking Bad" 5 2 .absent ⟨false, 0, false⟩
    rfl rfl rfl rfl

end TraktWatch
